import Mathlib

/-!
Shallow embedding of the Messana Home Assistant integration core:
the device API client (`src/api.py`, `MessanaClient`) and the polling
aggregation coordinator (`src/coordinator.py`, `MessanaCoordinator`).

JSON values are modelled by `JVal` (numbers as rationals), an HTTP exchange by
`HttpOutcome`, and the device a client talks to by a function from
(method, path) to `HttpOutcome`.  Fallible client operations return
`Except MessanaError _`, mirroring the Python exception flow of
`MessanaApiError` / `MessanaAuthError`.
-/

namespace Messana

/-- A JSON value as produced by `resp.json(...)`: the Python side sees
`None`, `bool`, numbers, `str`, `dict`, `list`.  Integers and floats are
collapsed into one rational-valued number constructor. -/
inductive JVal where
  | jnull : JVal
  | jbool : Bool → JVal
  | jnum : ℚ → JVal
  | jstr : String → JVal
  | jobj : List (String × JVal) → JVal
  | jarr : List JVal → JVal

/-- Digits of a numeric literal read as a natural number. -/
def digitsToNat (ds : List Char) : ℕ :=
  ds.foldl (fun n c => 10 * n + (c.toNat - 48)) 0

/-- Model of Python `float(s)` on a plain decimal string literal
(optional sign, integer part, optional fractional part); other strings
(exponents, inf/nan, stray characters) are treated as unparseable. -/
def parseDecimal? (s : String) : Option ℚ :=
  let cs := s.toList
  let signed : ℚ × List Char :=
    match cs with
    | '-' :: r => (-1, r)
    | '+' :: r => (1, r)
    | r => (1, r)
  let intPart := signed.2.takeWhile Char.isDigit
  let rest := signed.2.dropWhile Char.isDigit
  match rest with
  | [] =>
      if intPart.isEmpty then none
      else some (signed.1 * (digitsToNat intPart : ℚ))
  | '.' :: frac =>
      if frac.all Char.isDigit && !(intPart.isEmpty && frac.isEmpty) then
        some (signed.1 *
          ((digitsToNat intPart : ℚ) + (digitsToNat frac : ℚ) / (10 ^ frac.length)))
      else none
  | _ => none

/-- Truncation of a rational toward zero, the behaviour of Python `int()`
on a float. -/
def truncToward0 (q : ℚ) : ℤ :=
  if q < 0 then -((-q).num / (q.den : ℤ)) else q.num / (q.den : ℤ)

/-- Model of Python `float(val)`: succeeds on numbers, booleans
(`float(True) = 1.0`) and decimal string literals; `None`, objects and
arrays raise (here: `none`). -/
def pyFloat : JVal → Option ℚ
  | .jnum q => some q
  | .jbool b => some (if b then 1 else 0)
  | .jstr s => parseDecimal? s
  | _ => none

/-- Model of Python `int(val)`: succeeds on numbers (floats truncate toward
zero), booleans, and integer string literals; `None`, non-integer strings,
objects and arrays raise (here: `none`). -/
def pyInt : JVal → Option ℤ
  | .jnum q => some (truncToward0 q)
  | .jbool b => some (if b then 1 else 0)
  | .jstr s => s.toInt?
  | _ => none

/-- Model of Python `str(val)` as used on response fields.  Rendering of
non-string scalars is approximate (no claim depends on it); strings pass
through unchanged. -/
def pyStr : JVal → String
  | .jstr s => s
  | .jbool b => if b then "True" else "False"
  | .jnull => "None"
  | .jnum q => toString q.num
  | .jobj _ => "<dict>"
  | .jarr _ => "<list>"

/-- The error taxonomy of `src/api.py`: `MessanaAuthError` (a subclass of
`MessanaApiError` in Python) and the generic `MessanaApiError`, each carrying
a human-readable message. -/
inductive MessanaError where
  | authError : String → MessanaError
  | apiError : String → MessanaError
deriving DecidableEq

/-- Observable outcome of one HTTP exchange as seen through aiohttp:
either a transport failure (connection refused, timeout, DNS — any
pre-response exception, carrying its message), or a final response with a
status code and a body (`none` models a body that is not well-formed JSON). -/
inductive HttpOutcome where
  | transportError : String → HttpOutcome
  | response : ℕ → Option JVal → HttpOutcome

/-- The device behind the REST interface: what outcome it produces for each
(method, path) request. -/
def Device : Type := String → String → HttpOutcome

/-- Normalization at the end of `MessanaClient._request`: a body that is a
JSON object yields its fields; any other body `v` is wrapped as
`{"value": v}` (api.py lines 53-55). -/
def normBody : JVal → List (String × JVal)
  | .jobj fields => fields
  | v => [("value", v)]

/-- Embedding of `MessanaClient._request` applied to the outcome of the
underlying HTTP exchange:
a 401 status raises `MessanaAuthError` before anything else; any status
`≥ 400` raises via `resp.raise_for_status()` (aiohttp raises
`ClientResponseError` exactly for statuses 400 and higher) and is re-raised
as a generic `MessanaApiError`; a malformed JSON body or a transport failure
falls into the final `except Exception` clause, also a generic
`MessanaApiError`; otherwise the parsed body is normalized with `normBody`. -/
def requestOutcome : HttpOutcome → Except MessanaError (List (String × JVal))
  | .transportError msg => .error (.apiError msg)
  | .response status body =>
      if status = 401 then
        .error (.authError "Unauthorized (check API key)")
      else if 400 ≤ status then
        .error (.apiError ("HTTP error " ++ toString status))
      else
        match body with
        | none => .error (.apiError "malformed JSON body")
        | some v => .ok (normBody v)

/-- One client request against a device: `MessanaClient._request(method, path)`. -/
def request (dv : Device) (method path : String) :
    Except MessanaError (List (String × JVal)) :=
  requestOutcome (dv method path)

/-- Embedding of `MessanaClient._float_or_none(val, sentinel=...)`:
`None` (a missing key or JSON null) gives `none`; an unparseable value gives
`none`; a parsed float `f ≤ sentinel` gives `none`; otherwise `some f`.
The sentinel argument is `none` when the Python call omits it. -/
def float_or_none (sentinel : Option ℚ) (val : Option JVal) : Option ℚ :=
  match val with
  | none => none
  | some .jnull => none
  | some v =>
      match pyFloat v with
      | none => none
      | some f =>
          match sentinel with
          | some s => if f ≤ s then none else some f
          | none => some f

/-- Embedding of `MessanaClient._int_or_default(val, default)`. -/
def int_or_default (val : Option JVal) (d : ℤ) : ℤ :=
  match val with
  | none => d
  | some v => (pyInt v).getD d

/-- Python `dict.get(key)` on the normalized response fields (JSON objects
have unique keys, so first-match lookup agrees with the Python dict). -/
def getField (key : String) (fields : List (String × JVal)) : Option JVal :=
  List.lookup key fields

/-- `MessanaClient.get_system_status`: GET `/api/system/status`, field
`status`, default 0. -/
def get_system_status (dv : Device) : Except MessanaError ℤ := do
  let data ← request dv "GET" "/api/system/status"
  pure (int_or_default (getField "status" data) 0)

/-- `MessanaClient.get_temp_unit`: GET `/api/system/tempUnit`, field `value`,
default `"Celsius"`. -/
def get_temp_unit (dv : Device) : Except MessanaError String := do
  let data ← request dv "GET" "/api/system/tempUnit"
  match getField "value" data with
  | none => pure "Celsius"
  | some v => pure (pyStr v)

/-- `MessanaClient.get_zone_count`: GET `/api/system/zoneCount`; a missing or
non-convertible `count` field raises `MessanaApiError` (it is not defaulted). -/
def get_zone_count (dv : Device) : Except MessanaError ℤ := do
  let data ← request dv "GET" "/api/system/zoneCount"
  match getField "count" data with
  | none => .error (.apiError "Unexpected response for zoneCount")
  | some v =>
      match pyInt v with
      | none => .error (.apiError "Unexpected response for zoneCount")
      | some n => pure n

/-- `MessanaClient.get_hc_group_count`: GET `/api/system/HCgroupCount`; same
hard-error rule as `get_zone_count`. -/
def get_hc_group_count (dv : Device) : Except MessanaError ℤ := do
  let data ← request dv "GET" "/api/system/HCgroupCount"
  match getField "count" data with
  | none => .error (.apiError "Unexpected response for HCgroupCount")
  | some v =>
      match pyInt v with
      | none => .error (.apiError "Unexpected response for HCgroupCount")
      | some n => pure n

/-- `MessanaClient.get_hc_mode`: GET `/api/hc/mode/{group_id}`, field `value`,
default 2 (Auto). -/
def get_hc_mode (dv : Device) (gid : ℕ) : Except MessanaError ℤ := do
  let data ← request dv "GET" ("/api/hc/mode/" ++ toString gid)
  pure (int_or_default (getField "value" data) 2)

/-- `MessanaClient.get_hc_executive_season`: GET
`/api/hc/executiveSeason/{group_id}`, field `value`, default 0. -/
def get_hc_executive_season (dv : Device) (gid : ℕ) : Except MessanaError ℤ := do
  let data ← request dv "GET" ("/api/hc/executiveSeason/" ++ toString gid)
  pure (int_or_default (getField "value" data) 0)

/-- `MessanaClient.get_zone_name`: GET `/api/zone/name/{zone_id}`, field
`name`, default `"Zone {zone_id}"`. -/
def get_zone_name (dv : Device) (zid : ℕ) : Except MessanaError String := do
  let data ← request dv "GET" ("/api/zone/name/" ++ toString zid)
  match getField "name" data with
  | none => pure ("Zone " ++ toString zid)
  | some v => pure (pyStr v)

/-- `MessanaClient.get_zone_temperature`: GET
`/api/zone/temperature/{zone_id}`, field `value`, sentinel `-3000.0`. -/
def get_zone_temperature (dv : Device) (zid : ℕ) :
    Except MessanaError (Option ℚ) := do
  let data ← request dv "GET" ("/api/zone/temperature/" ++ toString zid)
  pure (float_or_none (some (-3000)) (getField "value" data))

/-- `MessanaClient.get_zone_humidity`: GET `/api/zone/humidity/{zone_id}`;
`data.get("value", data.get("values"))`, no sentinel. -/
def get_zone_humidity (dv : Device) (zid : ℕ) :
    Except MessanaError (Option ℚ) := do
  let data ← request dv "GET" ("/api/zone/humidity/" ++ toString zid)
  pure (float_or_none none ((getField "value" data).or (getField "values" data)))

/-- `MessanaClient.get_zone_dewpoint`: GET `/api/zone/dewpoint/{zone_id}`,
field `value`, sentinel `-3000.0`. -/
def get_zone_dewpoint (dv : Device) (zid : ℕ) :
    Except MessanaError (Option ℚ) := do
  let data ← request dv "GET" ("/api/zone/dewpoint/" ++ toString zid)
  pure (float_or_none (some (-3000)) (getField "value" data))

/-- `MessanaClient.get_zone_setpoint`: GET `/api/zone/setpoint/{zone_id}`,
field `value`, sentinel `-3000.0`. -/
def get_zone_setpoint (dv : Device) (zid : ℕ) :
    Except MessanaError (Option ℚ) := do
  let data ← request dv "GET" ("/api/zone/setpoint/" ++ toString zid)
  pure (float_or_none (some (-3000)) (getField "value" data))

/-- `MessanaClient.get_zone_status`: GET `/api/zone/status/{zone_id}`, field
`status`, default 0. -/
def get_zone_status (dv : Device) (zid : ℕ) : Except MessanaError ℤ := do
  let data ← request dv "GET" ("/api/zone/status/" ++ toString zid)
  pure (int_or_default (getField "status" data) 0)

/-- `MessanaClient.get_zone_thermal_status`: GET
`/api/zone/thermalStatus/{zone_id}`, field `status`, default 0. -/
def get_zone_thermal_status (dv : Device) (zid : ℕ) : Except MessanaError ℤ := do
  let data ← request dv "GET" ("/api/zone/thermalStatus/" ++ toString zid)
  pure (int_or_default (getField "status" data) 0)

/-- Modelled from the spec: `getZoneScheduleOn(zoneId) -> bool`.  The
coordinator (`src/coordinator.py` line 56) and the detach-schedule button call
`client.get_zone_schedule_on` / `set_zone_schedule_on`, but the method is
missing from `src/api.py`; per the spec it issues one GET request for the
zone's schedule-on flag and normalizes the response to a bool.  The path and
field follow the pattern of the sibling zone endpoints. -/
def get_zone_schedule_on (dv : Device) (zid : ℕ) : Except MessanaError Bool := do
  let data ← request dv "GET" ("/api/zone/scheduleOn/" ++ toString zid)
  pure (int_or_default (getField "value" data) 0 ≠ 0)

/-- Modelled from the spec: `getZoneScheduleStatus(zoneId) -> int`.  Called by
the coordinator (`src/coordinator.py` line 57) but missing from `src/api.py`;
per the spec it issues one GET request and normalizes the response to an int,
following the pattern of the sibling zone endpoints. -/
def get_zone_schedule_status (dv : Device) (zid : ℕ) : Except MessanaError ℤ := do
  let data ← request dv "GET" ("/api/zone/scheduleStatus/" ++ toString zid)
  pure (int_or_default (getField "value" data) 0)

/-- One entry of the coordinator's `hc_groups` mapping
(`src/coordinator.py` line 45). -/
structure HcRecord where
  mode : ℤ
  executive_season : ℤ
deriving DecidableEq

/-- One entry of the coordinator's `zones` mapping
(`src/coordinator.py` lines 59-70). -/
structure ZoneRecord where
  id : ℕ
  name : String
  temperature : Option ℚ
  humidity : Option ℚ
  dewpoint : Option ℚ
  setpoint : Option ℚ
  status : ℤ
  thermal_status : ℤ
  schedule_on : Bool
  schedule_status : ℤ
deriving DecidableEq

/-- The `system` part of the snapshot (`src/coordinator.py` lines 83-88). -/
structure SystemInfo where
  status : ℤ
  temp_unit : String
  api_zone_count : ℤ
  effective_zone_count : ℤ
deriving DecidableEq

/-- The snapshot returned by a successful refresh cycle
(`src/coordinator.py` lines 82-91).  The Python dicts keyed by dense
`0..n-1` indices are modelled as association lists in insertion order. -/
structure Snapshot where
  system : SystemInfo
  hc_groups : List (ℕ × HcRecord)
  zones : List (ℕ × ZoneRecord)
deriving DecidableEq

/-- The H/C group loop of `_async_update_data` (`src/coordinator.py`
lines 41-45): for each group id in order, fetch mode and executive season;
the first client error aborts the loop. -/
def buildHcGroups (dv : Device) : List ℕ → Except MessanaError (List (ℕ × HcRecord))
  | [] => .ok []
  | gid :: rest => do
      let mode ← get_hc_mode dv gid
      let ex_season ← get_hc_executive_season dv gid
      let tail ← buildHcGroups dv rest
      .ok ((gid, { mode := mode, executive_season := ex_season }) :: tail)

/-- One iteration of the zone loop of `_async_update_data`
(`src/coordinator.py` lines 49-70): fetch the nine per-zone values in source
order and assemble the zone record; the first client error aborts. -/
def fetchZone (dv : Device) (zid : ℕ) : Except MessanaError ZoneRecord := do
  let name ← get_zone_name dv zid
  let temp ← get_zone_temperature dv zid
  let rh ← get_zone_humidity dv zid
  let dp ← get_zone_dewpoint dv zid
  let sp ← get_zone_setpoint dv zid
  let onv ← get_zone_status dv zid
  let thermal_status ← get_zone_thermal_status dv zid
  let schedule_on ← get_zone_schedule_on dv zid
  let schedule_status ← get_zone_schedule_status dv zid
  .ok
    { id := zid
      name := name
      temperature := temp
      humidity := rh
      dewpoint := dp
      setpoint := sp
      status := onv
      thermal_status := thermal_status
      schedule_on := schedule_on
      schedule_status := schedule_status }

/-- The zone loop of `_async_update_data` (`src/coordinator.py`
lines 47-70): for each zone id in order, fetch and assemble the record;
the first client error aborts the loop. -/
def buildZones (dv : Device) : List ℕ → Except MessanaError (List (ℕ × ZoneRecord))
  | [] => .ok []
  | zid :: rest => do
      let r ← fetchZone dv zid
      let tail ← buildZones dv rest
      .ok ((zid, r) :: tail)

/-- Python `range(max(n, 0))` over an integer bound: the list of naturals
`0..n-1` (empty when `n ≤ 0`). -/
def pyRange (n : ℤ) : List ℕ := List.range (max n 0).toNat

/-- The body of `MessanaCoordinator._async_update_data` inside its `try`
block (`src/coordinator.py` lines 34-91), parameterized by the stored
`zone_count_override` and the device.  `zone_count` is the Python
`self.zone_count_override or api_zone_count` (0 is falsy). -/
def updateBody (override : ℤ) (dv : Device) : Except MessanaError Snapshot := do
  let system_on ← get_system_status dv
  let temp_unit ← get_temp_unit dv
  let api_zone_count ← get_zone_count dv
  let hc_count ← get_hc_group_count dv
  let zone_count := if override ≠ 0 then override else api_zone_count
  let hc_groups ← buildHcGroups dv (pyRange hc_count)
  let zones ← buildZones dv (pyRange zone_count)
  .ok
    { system :=
        { status := system_on
          temp_unit := temp_unit
          api_zone_count := api_zone_count
          effective_zone_count := zone_count }
      hc_groups := hc_groups
      zones := zones }

/-- The `UpdateFailed` exception a failed cycle raises to its initiator. -/
structure UpdateFailed where
  message : String
deriving DecidableEq

/-- Message carried by a `MessanaApiError` / `MessanaAuthError`
(Python `str(e)`). -/
def errMessage : MessanaError → String
  | .authError msg => msg
  | .apiError msg => msg

/-- `MessanaCoordinator._async_update_data` with its `except MessanaApiError`
clause (`src/coordinator.py` lines 93-94): any client error — auth errors are
a subclass of `MessanaApiError` and are caught too — is re-raised as
`UpdateFailed(str(e))`. -/
def asyncUpdateData (override : ℤ) (dv : Device) : Except UpdateFailed Snapshot :=
  match updateBody override dv with
  | .ok s => .ok s
  | .error e => .error ⟨errMessage e⟩

/-- The coordinator state the host framework retains between cycles. -/
structure CoordState where
  retained : Option Snapshot
deriving DecidableEq

/-- Modelled from the spec: the retention policy of the host
`DataUpdateCoordinator` base class (external to this repository, only
subclassed by `src/coordinator.py`) — a successful cycle replaces the
retained snapshot with the new one; a failed cycle leaves the retained
snapshot unchanged and surfaces the `UpdateFailed` error to the cycle's
initiator. -/
def refreshCycle (override : ℤ) (st : CoordState) (dv : Device) :
    CoordState × Except UpdateFailed Snapshot :=
  match asyncUpdateData override dv with
  | .ok s => ({ retained := some s }, .ok s)
  | .error e => (st, .error e)

/-- Shorthand for a 200 response whose JSON body is an object. -/
def okObj (fields : List (String × JVal)) : HttpOutcome :=
  .response 200 (some (.jobj fields))

/-- Concrete healthy device: one zone, zero H/C groups, every endpoint
answering. -/
def d1 : Device := fun _ path =>
  if path = "/api/system/status" then okObj [("status", .jnum 1)]
  else if path = "/api/system/tempUnit" then okObj [("value", .jstr "Celsius")]
  else if path = "/api/system/zoneCount" then okObj [("count", .jnum 1)]
  else if path = "/api/system/HCgroupCount" then okObj [("count", .jnum 0)]
  else if path = "/api/zone/name/0" then okObj [("name", .jstr "Living")]
  else if path = "/api/zone/scheduleOn/0" then okObj [("value", .jnum 1)]
  else if path = "/api/zone/scheduleStatus/0" then okObj [("value", .jnum 2)]
  else okObj [("value", .jnum 21)]

/-- The zone record `d1` produces for zone 0. -/
def r1 : ZoneRecord :=
  { id := 0
    name := "Living"
    temperature := some 21
    humidity := some 21
    dewpoint := some 21
    setpoint := some 21
    status := 0
    thermal_status := 0
    schedule_on := true
    schedule_status := 2 }

/-- The snapshot a refresh against `d1` with no override produces. -/
def s1 : Snapshot :=
  { system :=
      { status := 1
        temp_unit := "Celsius"
        api_zone_count := 1
        effective_zone_count := 1 }
    hc_groups := []
    zones := [(0, r1)] }

/-- Concrete device that fails partway through the zone loop: two zones,
zone 0 healthy, zone 1 answering 401 on its name endpoint. -/
def d2 : Device := fun m path =>
  if path = "/api/system/zoneCount" then okObj [("count", .jnum 2)]
  else if path = "/api/zone/name/1" then .response 401 none
  else d1 m path

/-- Concrete device for the count hard-error rule: the zone-count body has
no `count` field, the H/C-group-count body has `count = 3`. -/
def dCnt : Device := fun _ path =>
  if path = "/api/system/zoneCount" then okObj []
  else if path = "/api/system/HCgroupCount" then okObj [("count", .jnum 3)]
  else okObj [("value", .jnum 0)]

/-- Concrete device for the sentinel boundary: temperature `-3276.8`,
dewpoint `-2999.9`, setpoint `-3000`. -/
def dSent : Device := fun _ path =>
  if path = "/api/zone/temperature/0" then okObj [("value", .jnum (mkRat (-32768) 10))]
  else if path = "/api/zone/dewpoint/0" then okObj [("value", .jnum (mkRat (-29999) 10))]
  else okObj [("value", .jnum (-3000))]

/-- Concrete device for humidity field fallback: zone 0 has `value`, zone 1
only `values`, zone 2 neither, zone 3 both (with a sub-sentinel `value`). -/
def dHum : Device := fun _ path =>
  if path = "/api/zone/humidity/0" then okObj [("value", .jnum (mkRat 206 5))]
  else if path = "/api/zone/humidity/1" then okObj [("values", .jnum (mkRat 206 5))]
  else if path = "/api/zone/humidity/2" then okObj []
  else if path = "/api/zone/humidity/3" then
    okObj [("value", .jnum (-3500)), ("values", .jnum 7)]
  else okObj []

/-- Concrete device answering every request with status 300 and the JSON
body `1` (well-formed, not an object). -/
def d300 : Device := fun _ _ => .response 300 (some (.jnum 1))

/-- Concrete device answering every request with 401 and no parseable body. -/
def d401 : Device := fun _ _ => .response 401 none

/-- Concrete device failing at the transport layer on every request. -/
def dTr : Device := fun _ _ => .transportError "Cannot connect to host"

/-- Concrete device answering every request with a 500 status. -/
def d500 : Device := fun _ _ => .response 500 (some (.jnum 0))

/-- Concrete device answering 200 with a malformed (non-JSON) body. -/
def dBad : Device := fun _ _ => .response 200 none

/-- Concrete device answering 200 with a well-formed object body. -/
def dOk : Device := fun _ _ => okObj [("status", .jnum 1)]

/-- Concrete device reporting a negative zone count (`-1`) and a negative
H/C group count (`-2`); the four header endpoints all answer 200. -/
def dNeg : Device := fun _ path =>
  if path = "/api/system/status" then okObj [("status", .jnum 0)]
  else if path = "/api/system/tempUnit" then okObj [("value", .jstr "Celsius")]
  else if path = "/api/system/zoneCount" then okObj [("count", .jnum (-1))]
  else if path = "/api/system/HCgroupCount" then okObj [("count", .jnum (-2))]
  else okObj []

/-- The snapshot a refresh against `dNeg` with no override produces: the
negative reported count is published unclamped while both loops are empty. -/
def sNeg : Snapshot :=
  { system :=
      { status := 0
        temp_unit := "Celsius"
        api_zone_count := -1
        effective_zone_count := -1 }
    hc_groups := []
    zones := [] }

/-- Concrete device answering every request with `{"count": 3}`: every
defaulted field falls back, and both counts read 3. -/
def dAll : Device := fun _ _ => okObj [("count", .jnum 3)]

/-- The zone record `dAll` produces for any zone id: all optional values
absent, all defaulted fields at their defaults. -/
def rAll (zid : ℕ) : ZoneRecord :=
  { id := zid
    name := "Zone " ++ toString zid
    temperature := none
    humidity := none
    dewpoint := none
    setpoint := none
    status := 0
    thermal_status := 0
    schedule_on := false
    schedule_status := 0 }

/-- The snapshot a refresh against `dAll` with override 5 produces:
3 reported zones, 3 H/C groups, 5 effective zones. -/
def sAll : Snapshot :=
  { system :=
      { status := 0
        temp_unit := "Celsius"
        api_zone_count := 3
        effective_zone_count := 5 }
    hc_groups := [(0, ⟨2, 0⟩), (1, ⟨2, 0⟩), (2, ⟨2, 0⟩)]
    zones := [(0, rAll 0), (1, rAll 1), (2, rAll 2), (3, rAll 3), (4, rAll 4)] }

/-- Python truthiness fallback `v or 0` on an optional integer argument
(`None` and `0` both give `0`). -/
def pyOrZero (v : Option ℤ) : ℤ :=
  match v with
  | none => 0
  | some n => if n = 0 then 0 else n

/-- The override stored by `MessanaCoordinator.__init__`
(`src/coordinator.py` line 30): `max(int(zone_count_override or 0), 0)`. -/
def storedOverride (v : Option ℤ) : ℤ :=
  max (pyOrZero v) 0

instance {ε α : Type} [DecidableEq ε] [DecidableEq α] : DecidableEq (Except ε α) :=
  fun x y =>
    match x, y with
    | .ok a, .ok b => decidable_of_iff (a = b) (by simp)
    | .error e, .error f => decidable_of_iff (e = f) (by simp)
    | .ok _, .error _ => isFalse (by simp)
    | .error _, .ok _ => isFalse (by simp)

theorem exceptBind_eq_ok {ε α β : Type} {m : Except ε α}
    {f : α → Except ε β} {b : β} :
    m >>= f = .ok b ↔ ∃ a, m = .ok a ∧ f a = .ok b := by
  cases m with
  | error e => simp [Bind.bind, Except.bind]
  | ok a => simp [Bind.bind, Except.bind]

theorem exceptBind_error {ε α β : Type} (e : ε) (f : α → Except ε β) :
    (Except.error e >>= f : Except ε β) = .error e := rfl

theorem exceptBind_ok {ε α β : Type} (a : α) (f : α → Except ε β) :
    (Except.ok a >>= f : Except ε β) = f a := rfl

/-- Successful `fetchZone` stores exactly the client results for the two
schedule fields. -/
theorem fetchZone_eq_ok {dv : Device} {zid : ℕ} {r : ZoneRecord}
    (h : fetchZone dv zid = .ok r) :
    get_zone_schedule_on dv zid = .ok r.schedule_on ∧
    get_zone_schedule_status dv zid = .ok r.schedule_status := by
  unfold fetchZone at h
  simp only [exceptBind_eq_ok, Except.ok.injEq] at h
  obtain ⟨nm, h1, temp, h2, rh, h3, dp, h4, sp, h5, onv, h6, th, h7,
    son, h8, sst, h9, h10⟩ := h
  subst h10
  exact ⟨h8, h9⟩

/-- A successful zone loop over `xs` produces exactly the keys `xs` in order,
each paired with the record `fetchZone` returns for it. -/
theorem buildZones_eq_ok {dv : Device} {xs : List ℕ} {l : List (ℕ × ZoneRecord)}
    (h : buildZones dv xs = .ok l) :
    l.map Prod.fst = xs ∧ ∀ p ∈ l, fetchZone dv p.1 = .ok p.2 := by
  induction xs generalizing l with
  | nil =>
      simp only [buildZones, Except.ok.injEq] at h
      subst h
      simp
  | cons zid rest ih =>
      simp only [buildZones, exceptBind_eq_ok, Except.ok.injEq] at h
      obtain ⟨r, hr, tail, htail, hl⟩ := h
      subst hl
      obtain ⟨hkeys, hmem⟩ := ih htail
      refine ⟨by simp [hkeys], ?_⟩
      intro p hp
      rcases List.mem_cons.mp hp with hp | hp
      · subst hp; exact hr
      · exact hmem p hp

/-- A successful H/C group loop over `xs` produces exactly the keys `xs`
in order. -/
theorem buildHcGroups_eq_ok {dv : Device} {xs : List ℕ}
    {l : List (ℕ × HcRecord)} (h : buildHcGroups dv xs = .ok l) :
    l.map Prod.fst = xs := by
  induction xs generalizing l with
  | nil =>
      simp only [buildHcGroups, Except.ok.injEq] at h
      subst h
      simp
  | cons gid rest ih =>
      simp only [buildHcGroups, exceptBind_eq_ok, Except.ok.injEq] at h
      obtain ⟨mode, hm, ex, he, tail, htail, hl⟩ := h
      subst hl
      simp [ih htail]

/-- Decomposition of a successful refresh-cycle body into its sequential
client calls. -/
theorem updateBody_eq_ok {ov : ℤ} {dv : Device} {s : Snapshot}
    (h : updateBody ov dv = .ok s) :
    ∃ st tu zc hc gs zs,
      get_system_status dv = .ok st ∧
      get_temp_unit dv = .ok tu ∧
      get_zone_count dv = .ok zc ∧
      get_hc_group_count dv = .ok hc ∧
      buildHcGroups dv (pyRange hc) = .ok gs ∧
      buildZones dv (pyRange (if ov ≠ 0 then ov else zc)) = .ok zs ∧
      s = { system :=
              { status := st
                temp_unit := tu
                api_zone_count := zc
                effective_zone_count := if ov ≠ 0 then ov else zc }
            hc_groups := gs
            zones := zs } := by
  unfold updateBody at h
  simp only [exceptBind_eq_ok, Except.ok.injEq] at h
  obtain ⟨st, h1, tu, h2, zc, h3, hc, h4, gs, h5, zs, h6, h7⟩ := h
  exact ⟨st, tu, zc, hc, gs, zs, h1, h2, h3, h4, h5, h6, h7.symm⟩

/-- C1: the client provides a schedule-on operation returning a bool and a
schedule-status operation returning an int, and on every successful refresh
cycle the coordinator builds one zone record per index
`0..effectiveZoneCount-1` in order, invoking both operations for each index
and storing their results as the record's `schedule_on` and
`schedule_status` fields. -/
theorem claim1_schedule_fields (ov : ℤ) (dv : Device) (s : Snapshot)
    (h : updateBody ov dv = .ok s) :
    s.zones.map Prod.fst = pyRange s.system.effective_zone_count ∧
    ∀ zid r, (zid, r) ∈ s.zones →
      get_zone_schedule_on dv zid = .ok r.schedule_on ∧
      get_zone_schedule_status dv zid = .ok r.schedule_status := by
  obtain ⟨st, tu, zc, hc, gs, zs, h1, h2, h3, h4, h5, h6, h7⟩ := updateBody_eq_ok h
  subst h7
  obtain ⟨hkeys, hmem⟩ := buildZones_eq_ok h6
  refine ⟨hkeys, ?_⟩
  intro zid r hr
  exact fetchZone_eq_ok (hmem (zid, r) hr)

/-- C1 witness: against the concrete one-zone device `d1`, the cycle
succeeds and zone 0 carries the client's schedule results. -/
theorem claim1_witness :
    updateBody 0 d1 = .ok s1 ∧
    get_zone_schedule_on d1 0 = .ok true ∧
    get_zone_schedule_status d1 0 = .ok 2 := by
  have h : updateBody 0 d1 = .ok s1 := by rfl
  have h2 := (claim1_schedule_fields 0 d1 s1 h).2 0 r1 (List.mem_cons_self _ _)
  exact ⟨h, h2.1, h2.2⟩

/-- C2: a refresh cycle in which any client operation fails — at any step —
publishes no snapshot: the retained snapshot is exactly what it was before,
and the cycle surfaces `UpdateFailed` carrying the error's message. -/
theorem claim2_failure_retains (ov : ℤ) (st : CoordState) (dv : Device)
    (e : MessanaError) (h : updateBody ov dv = .error e) :
    (refreshCycle ov st dv).1 = st ∧
    (refreshCycle ov st dv).2 = .error ⟨errMessage e⟩ := by
  unfold refreshCycle asyncUpdateData
  rw [h]
  exact ⟨rfl, rfl⟩

/-- C2 witness: against `d2` (system fetch succeeds, zone 1 answers 401
partway through the zone loop), a cycle starting from retained snapshot `s1`
fails, keeps `s1`, and reports the auth error. -/
theorem claim2_witness :
    updateBody 0 d2 = .error (.authError "Unauthorized (check API key)") ∧
    (refreshCycle 0 ⟨some s1⟩ d2).1 = ⟨some s1⟩ ∧
    (refreshCycle 0 ⟨some s1⟩ d2).2 = .error ⟨"Unauthorized (check API key)"⟩ := by
  have h : updateBody 0 d2 = .error (.authError "Unauthorized (check API key)") := by
    rfl
  have h2 := claim2_failure_retains 0 ⟨some s1⟩ d2 _ h
  exact ⟨h, h2.1, h2.2⟩

/-- C3: for every response body, `get_zone_count` raises `MessanaApiError`
exactly when the body's `count` field is missing or not convertible to an
integer, and otherwise returns that integer; `get_hc_group_count` follows the
same hard-error rule. -/
theorem claim3_count_hard_error (dv : Device) (bz bh : JVal)
    (hz : dv "GET" "/api/system/zoneCount" = .response 200 (some bz))
    (hh : dv "GET" "/api/system/HCgroupCount" = .response 200 (some bh)) :
    get_zone_count dv =
      (match (getField "count" (normBody bz)).bind pyInt with
        | none => .error (.apiError "Unexpected response for zoneCount")
        | some n => .ok n) ∧
    get_hc_group_count dv =
      (match (getField "count" (normBody bh)).bind pyInt with
        | none => .error (.apiError "Unexpected response for HCgroupCount")
        | some n => .ok n) := by
  have hreqz : request dv "GET" "/api/system/zoneCount" = .ok (normBody bz) := by
    unfold request; rw [hz]; rfl
  have hreqh : request dv "GET" "/api/system/HCgroupCount" = .ok (normBody bh) := by
    unfold request; rw [hh]; rfl
  constructor
  · unfold get_zone_count
    rw [hreqz]
    simp only [exceptBind_ok]
    cases hlu : getField "count" (normBody bz) with
    | none => simp [hlu]
    | some v =>
        cases hpi : pyInt v with
        | none => simp [hlu, hpi]
        | some n => simp [hlu, hpi, pure, Except.pure]
  · unfold get_hc_group_count
    rw [hreqh]
    simp only [exceptBind_ok]
    cases hlu : getField "count" (normBody bh) with
    | none => simp [hlu]
    | some v =>
        cases hpi : pyInt v with
        | none => simp [hlu, hpi]
        | some n => simp [hlu, hpi, pure, Except.pure]

/-- C3 witness: against `dCnt`, whose zone-count body has no `count` field
and whose H/C-group-count body has `count = 3`, the first call raises the
API error and the second returns 3. -/
theorem claim3_witness :
    get_zone_count dCnt = .error (.apiError "Unexpected response for zoneCount") ∧
    get_hc_group_count dCnt = .ok 3 := by
  have h := claim3_count_hard_error dCnt (.jobj []) (.jobj [("count", .jnum 3)])
    rfl rfl
  exact ⟨h.1, h.2⟩

/-- C4: for every raw numeric `value` field `v`, the temperature, dewpoint
and setpoint getters return "no value" when `v ≤ -3000` and `v` unchanged
when `v > -3000`. -/
theorem claim4_sentinel (dv : Device) (zid : ℕ) (v : ℚ) :
    (dv "GET" ("/api/zone/temperature/" ++ toString zid) =
        .response 200 (some (.jobj [("value", .jnum v)])) →
      get_zone_temperature dv zid = .ok (if v ≤ -3000 then none else some v)) ∧
    (dv "GET" ("/api/zone/dewpoint/" ++ toString zid) =
        .response 200 (some (.jobj [("value", .jnum v)])) →
      get_zone_dewpoint dv zid = .ok (if v ≤ -3000 then none else some v)) ∧
    (dv "GET" ("/api/zone/setpoint/" ++ toString zid) =
        .response 200 (some (.jobj [("value", .jnum v)])) →
      get_zone_setpoint dv zid = .ok (if v ≤ -3000 then none else some v)) := by
  refine ⟨fun h => ?_, fun h => ?_, fun h => ?_⟩
  · unfold get_zone_temperature
    rw [show request dv "GET" ("/api/zone/temperature/" ++ toString zid) =
        .ok [("value", .jnum v)] from by unfold request; rw [h]; rfl]
    rfl
  · unfold get_zone_dewpoint
    rw [show request dv "GET" ("/api/zone/dewpoint/" ++ toString zid) =
        .ok [("value", .jnum v)] from by unfold request; rw [h]; rfl]
    rfl
  · unfold get_zone_setpoint
    rw [show request dv "GET" ("/api/zone/setpoint/" ++ toString zid) =
        .ok [("value", .jnum v)] from by unfold request; rw [h]; rfl]
    rfl

/-- C4 witness: against `dSent`, the documented placeholder `-3276.8`
normalizes to "no value", the boundary value `-2999.9` passes through, and
`-3000` itself normalizes to "no value". -/
theorem claim4_witness :
    get_zone_temperature dSent 0 = .ok none ∧
    get_zone_dewpoint dSent 0 = .ok (some (mkRat (-29999) 10)) ∧
    get_zone_setpoint dSent 0 = .ok none := by
  refine ⟨?_, ?_, ?_⟩
  · have h := (claim4_sentinel dSent 0 (mkRat (-32768) 10)).1 rfl
    rwa [if_pos (by decide)] at h
  · have h := (claim4_sentinel dSent 0 (mkRat (-29999) 10)).2.1 rfl
    rwa [if_neg (by decide)] at h
  · have h := (claim4_sentinel dSent 0 ((-3000 : ℚ))).2.2 rfl
    rwa [if_pos (by decide)] at h

/-- C5: the humidity getter prefers the `value` field, falls back to
`values` when `value` is absent, returns "no value" when neither is present,
and applies no sentinel threshold. -/
theorem claim5_humidity (dv : Device) (zid : ℕ) (v w : ℚ) :
    (dv "GET" ("/api/zone/humidity/" ++ toString zid) =
        .response 200 (some (.jobj [("value", .jnum v)])) →
      get_zone_humidity dv zid = .ok (some v)) ∧
    (dv "GET" ("/api/zone/humidity/" ++ toString zid) =
        .response 200 (some (.jobj [("values", .jnum w)])) →
      get_zone_humidity dv zid = .ok (some w)) ∧
    (dv "GET" ("/api/zone/humidity/" ++ toString zid) =
        .response 200 (some (.jobj [])) →
      get_zone_humidity dv zid = .ok none) ∧
    (dv "GET" ("/api/zone/humidity/" ++ toString zid) =
        .response 200 (some (.jobj [("value", .jnum v), ("values", .jnum w)])) →
      get_zone_humidity dv zid = .ok (some v)) := by
  refine ⟨fun h => ?_, fun h => ?_, fun h => ?_, fun h => ?_⟩
  · unfold get_zone_humidity
    rw [show request dv "GET" ("/api/zone/humidity/" ++ toString zid) =
        .ok [("value", .jnum v)] from by unfold request; rw [h]; rfl]
    rfl
  · unfold get_zone_humidity
    rw [show request dv "GET" ("/api/zone/humidity/" ++ toString zid) =
        .ok [("values", .jnum w)] from by unfold request; rw [h]; rfl]
    rfl
  · unfold get_zone_humidity
    rw [show request dv "GET" ("/api/zone/humidity/" ++ toString zid) =
        .ok [] from by unfold request; rw [h]; rfl]
    rfl
  · unfold get_zone_humidity
    rw [show request dv "GET" ("/api/zone/humidity/" ++ toString zid) =
        .ok [("value", .jnum v), ("values", .jnum w)] from by
      unfold request; rw [h]; rfl]
    rfl

/-- C5 witness: against `dHum`, `{"value": 41.2}` and `{"values": 41.2}`
both normalize to 41.2, an empty body normalizes to "no value", and a
`value` of -3500 passes through despite being below the sentinel used by the
temperature-family getters. -/
theorem claim5_witness :
    get_zone_humidity dHum 0 = .ok (some (mkRat 206 5)) ∧
    get_zone_humidity dHum 1 = .ok (some (mkRat 206 5)) ∧
    get_zone_humidity dHum 2 = .ok none ∧
    get_zone_humidity dHum 3 = .ok (some (-3500)) := by
  exact ⟨(claim5_humidity dHum 0 (mkRat 206 5) 0).1 rfl,
    (claim5_humidity dHum 1 0 (mkRat 206 5)).2.1 rfl,
    (claim5_humidity dHum 2 0 0).2.2.1 rfl,
    (claim5_humidity dHum 3 (-3500) 7).2.2.2 rfl⟩

/-- C6 counterexample: a status-300 response with the well-formed JSON body
`1` is not a 2xx and not a 401, yet `_request` raises nothing — it returns
the normalized body — refuting the claim that every non-2xx status other
than 401 raises the generic API error (`raise_for_status` only raises for
statuses 400 and higher). -/
theorem claim6_counterexample :
    d300 "GET" "/p" = .response 300 (some (.jnum 1)) ∧
    request d300 "GET" "/p" = .ok [("value", .jnum 1)] :=
  ⟨rfl, rfl⟩

/-- C6 amended: a 401 raises the distinct auth error before any generic
handling; a transport failure, a status `≥ 400` other than 401, or a
malformed JSON body on a sub-400 status raises the generic API error with a
human-readable cause; any sub-400 non-401 response with a well-formed JSON
body — in particular every 2xx — never raises. -/
theorem claim6_error_taxonomy (dv : Device) (m p : String) :
    (∀ b, dv m p = .response 401 b →
      request dv m p = .error (.authError "Unauthorized (check API key)")) ∧
    (∀ msg, dv m p = .transportError msg →
      request dv m p = .error (.apiError msg)) ∧
    (∀ st b, dv m p = .response st b → 400 ≤ st → st ≠ 401 →
      request dv m p = .error (.apiError ("HTTP error " ++ toString st))) ∧
    (∀ st, dv m p = .response st none → st ≠ 401 → st < 400 →
      request dv m p = .error (.apiError "malformed JSON body")) ∧
    (∀ st b, dv m p = .response st (some b) → st ≠ 401 → st < 400 →
      request dv m p = .ok (normBody b)) := by
  refine ⟨fun b h => ?_, fun msg h => ?_, fun st b h h4 h401 => ?_,
    fun st h h401 h4 => ?_, fun st b h h401 h4 => ?_⟩
  · unfold request; rw [h]; rfl
  · unfold request; rw [h]; rfl
  · unfold request
    rw [h]
    simp only [requestOutcome]
    rw [if_neg h401, if_pos h4]
  · unfold request
    rw [h]
    simp only [requestOutcome]
    rw [if_neg h401, if_neg (by omega : ¬ 400 ≤ st)]
  · unfold request
    rw [h]
    simp only [requestOutcome]
    rw [if_neg h401, if_neg (by omega : ¬ 400 ≤ st)]

/-- C6 witness: one concrete device per branch of the amended taxonomy. -/
theorem claim6_witness :
    request d401 "GET" "/p" = .error (.authError "Unauthorized (check API key)") ∧
    request dTr "GET" "/p" = .error (.apiError "Cannot connect to host") ∧
    request d500 "GET" "/p" = .error (.apiError "HTTP error 500") ∧
    request dBad "GET" "/p" = .error (.apiError "malformed JSON body") ∧
    request dOk "GET" "/p" = .ok [("status", .jnum 1)] := by
  refine ⟨(claim6_error_taxonomy d401 "GET" "/p").1 none rfl,
    (claim6_error_taxonomy dTr "GET" "/p").2.1 "Cannot connect to host" rfl,
    (claim6_error_taxonomy d500 "GET" "/p").2.2.1 500 (some (.jnum 0)) rfl
      (by decide) (by decide),
    (claim6_error_taxonomy dBad "GET" "/p").2.2.2.1 200 rfl (by decide) (by decide),
    (claim6_error_taxonomy dOk "GET" "/p").2.2.2.2 200 (.jobj [("status", .jnum 1)])
      rfl (by decide) (by decide)⟩

/-- C7: on every successful cycle with a (clamped, hence nonnegative) stored
override, the published `effective_zone_count` equals the override when the
override is positive, and the device-reported count otherwise. -/
theorem claim7_effective_count (ov : ℤ) (dv : Device) (s : Snapshot)
    (hov : 0 ≤ ov) (h : updateBody ov dv = .ok s) :
    s.system.effective_zone_count =
      if 0 < ov then ov else s.system.api_zone_count := by
  obtain ⟨st, tu, zc, hc, gs, zs, h1, h2, h3, h4, h5, h6, h7⟩ := updateBody_eq_ok h
  subst h7
  show (if ov ≠ 0 then ov else zc) = if 0 < ov then ov else zc
  by_cases hz : ov = 0
  · subst hz; simp
  · have hpos : 0 < ov := lt_of_le_of_ne hov (Ne.symm hz)
    simp [hz, hpos]

/-- C7 witness: override 0 against the one-zone device yields the reported
count; override 5 against a three-zone device yields 5. -/
theorem claim7_witness :
    (0 : ℤ) ≤ 0 ∧ updateBody 0 d1 = .ok s1 ∧
      s1.system.effective_zone_count = s1.system.api_zone_count ∧
    (0 : ℤ) ≤ 5 ∧ updateBody 5 dAll = .ok sAll ∧
      sAll.system.effective_zone_count = 5 := by
  have h1 := claim7_effective_count 0 d1 s1 (by decide) rfl
  have h2 := claim7_effective_count 5 dAll sAll (by decide) rfl
  exact ⟨by decide, rfl, h1, by decide, rfl, h2⟩

/-- C8 counterexample: with no override, a device reporting a zone count of
`-1` produces a successfully published snapshot whose
`system.effective_zone_count` is negative, refuting the unconditional
`effective_zone_count ≥ 0` invariant (the loops clamp with `max(_, 0)`, but
the published field does not). -/
theorem claim8_counterexample :
    updateBody 0 dNeg = .ok sNeg ∧ sNeg.system.effective_zone_count < 0 :=
  ⟨rfl, by decide⟩

/-- C8 amended: `effective_zone_count ≥ 0` holds for every snapshot
published with a nonnegative stored override, provided the override is
nonzero or the device-reported count is nonnegative; a negative reported
count with no override is published unchanged. -/
theorem claim8_nonneg (ov : ℤ) (dv : Device) (s : Snapshot)
    (h0 : 0 ≤ ov) (hrep : ov ≠ 0 ∨ 0 ≤ s.system.api_zone_count)
    (h : updateBody ov dv = .ok s) :
    0 ≤ s.system.effective_zone_count := by
  obtain ⟨st, tu, zc, hc, gs, zs, h1, h2, h3, h4, h5, h6, h7⟩ := updateBody_eq_ok h
  subst h7
  have hrep' : ov ≠ 0 ∨ 0 ≤ zc := hrep
  show 0 ≤ if ov ≠ 0 then ov else zc
  split
  · exact h0
  · next hz =>
      rcases hrep' with h' | h'
      · exact absurd h' hz
      · exact h'

/-- C8 witness: the amended invariant applied to the healthy one-zone
device. -/
theorem claim8_witness :
    (0 : ℤ) ≤ 0 ∧ ((0 : ℤ) ≠ 0 ∨ 0 ≤ s1.system.api_zone_count) ∧
    0 ≤ s1.system.effective_zone_count :=
  ⟨by decide, Or.inr (by decide),
    claim8_nonneg 0 d1 s1 (by decide) (Or.inr (by decide)) rfl⟩

/-- C10: the constructor clamps every override argument (including `None`
and negative integers) to a nonnegative stored value, and on every
successful cycle the group loop covers exactly the indices
`0..max(hc_count,0)-1` and the zone loop exactly
`0..max(effective_zone_count,0)-1`, so negative device-reported counts
yield empty dense mappings rather than an exception. -/
theorem claim10_loop_clamping :
    (∀ v : Option ℤ, 0 ≤ storedOverride v) ∧
    (∀ (ov : ℤ) (dv : Device) (s : Snapshot) (n : ℤ),
      updateBody ov dv = .ok s → get_hc_group_count dv = .ok n →
      s.hc_groups.map Prod.fst = pyRange n ∧
      s.zones.map Prod.fst = pyRange s.system.effective_zone_count) := by
  constructor
  · intro v
    exact le_max_right _ _
  · intro ov dv s n h hn
    obtain ⟨st, tu, zc, hc, gs, zs, h1, h2, h3, h4, h5, h6, h7⟩ := updateBody_eq_ok h
    subst h7
    have hcn : hc = n := Except.ok.inj (h4.symm.trans hn)
    subst hcn
    exact ⟨buildHcGroups_eq_ok h5, (buildZones_eq_ok h6).1⟩

/-- C10 witness: a negative override argument and `None` both store 0, and
the device reporting counts `-1` and `-2` yields a successful cycle with
empty group and zone mappings. -/
theorem claim10_witness :
    0 ≤ storedOverride (some (-7)) ∧
    0 ≤ storedOverride none ∧
    updateBody 0 dNeg = .ok sNeg ∧
    get_hc_group_count dNeg = .ok (-2) ∧
    sNeg.hc_groups.map Prod.fst = pyRange (-2) ∧
    sNeg.zones.map Prod.fst = pyRange sNeg.system.effective_zone_count := by
  have h := claim10_loop_clamping.2 0 dNeg sNeg (-2) rfl rfl
  exact ⟨claim10_loop_clamping.1 (some (-7)), claim10_loop_clamping.1 none,
    rfl, rfl, h.1, h.2⟩

end Messana
